import Mathlib

/-!
Verification of the chart-type classifier in
`src/backend_python/detect_api.py` (`detect_chart_type_accurate`).

The core computes a vector of visual statistics from an RGB image and then
runs a fixed ordered decision tree over it.  The feature computations call
out to the OpenCV library (Canny, findContours, HoughCircles, HoughLinesP,
threshold, approxPolyDP); those library results are modelled here as
abstract *sensor data* (contour areas and polygon-approximation vertex
counts, edge-pixel counts, circle radii, line segments), while every piece
of arithmetic and control flow written in the repository itself is embedded
exactly.  Floating-point quantities are modelled as exact rationals; the
fixed decimal thresholds (0.2, 0.15, 0.12, ...) are all exactly
representable.  The per-segment "vertical" test involves `arctan2` on
library output and is therefore kept as an abstract boolean predicate
parameter `isVert`; no claim depends on its value.
-/

namespace ChartDetect

/-- A contour returned by `cv2.findContours`, abstracted to the two pieces
of library data the repository code reads: its area (`cv2.contourArea`) and
the vertex count of its polygon approximation (`len(cv2.approxPolyDP(...))`). -/
structure Contour where
  area : ℚ
  approxVertices : ℕ
deriving DecidableEq, Repr

/-- A line segment returned by `cv2.HoughLinesP`: endpoint coordinates. -/
structure Segment where
  x1 : ℤ
  y1 : ℤ
  x2 : ℤ
  y2 : ℤ
deriving DecidableEq, Repr

/-- The raw library outputs consumed by `detect_chart_type_accurate`:
image dimensions, the contour list from the Canny edge map, the count of
edge pixels, colour statistics (`np.std`, saturation mean), the count of
pixels below the fill threshold, the optional circle list from
`HoughCircles` (radii only; the code reads `circle[2]`), and the optional
segment list from `HoughLinesP` (`None` models the no-detection result). -/
structure SensorData where
  width : ℕ
  height : ℕ
  contours : List Contour
  edgePixels : ℕ
  colorStd : ℚ
  satMean : ℚ
  filledPixels : ℕ
  circles : Option (List ℚ)
  lines : Option (List Segment)

/-- The fixed record of derived statistics ("FeatureVector" in the spec),
one field per intermediate computed by lines 31-98 of `detect_api.py`. -/
structure FeatureVector where
  width : ℕ
  height : ℕ
  edge_density : ℚ
  num_contours : ℕ
  small_contours : ℕ
  num_rectangles : ℕ
  color_std : ℚ
  saturation_mean : ℚ
  filled_ratio : ℚ
  circles : Option (List ℚ)
  long_lines : ℕ
  vertical_lines : ℕ
deriving Repr

/-- Line 91 of the source: `length > width * 0.15`, with
`length = sqrt((x2-x1)**2 + (y2-y1)**2)`.  Both sides are nonnegative, so
the comparison is equivalent to comparing squares, which is exact in ℚ. -/
def isLongSegment (w : ℕ) (s : Segment) : Bool :=
  decide ((((s.x2 - s.x1) ^ 2 + (s.y2 - s.y1) ^ 2 : ℤ) : ℚ) > ((0.15 : ℚ) * w) ^ 2)

/-- Lines 83-94 of the source: the loop over `HoughLinesP` output counting
long and vertical segments; when the search returns `None` both counters
keep their initial value 0.  The verticality test (`80 < angle < 100` after
`arctan2`) is the abstract parameter `isVert`. -/
def lineCounts (isVert : Segment → Bool) (w : ℕ)
    (lines : Option (List Segment)) : ℕ × ℕ :=
  match lines with
  | none => (0, 0)
  | some segs =>
      segs.foldl
        (fun acc s =>
          (if isLongSegment w s then acc.1 + 1 else acc.1,
           if isVert s then acc.2 + 1 else acc.2))
        (0, 0)

/-- Lines 31-98 of the source: the feature-extraction block, computing the
derived statistics from the abstract sensor data.
* significant contours: area > 50 (line 39);
* `edge_density` = edge pixels / (height·width) (line 44);
* rectangles: significant contours with area > 200 whose polygon
  approximation has exactly 4 vertices (lines 66-74);
* `small_contours`: significant contours with 10 < area < 200 (line 98);
* fill ratio = filled pixels / (height·width) (line 55). -/
def extract (isVert : Segment → Bool) (d : SensorData) : FeatureVector :=
  let significant := d.contours.filter (fun c => c.area > 50)
  let counts := lineCounts isVert d.width d.lines
  { width := d.width
    height := d.height
    edge_density := (d.edgePixels : ℚ) / ((d.height : ℚ) * (d.width : ℚ))
    num_contours := significant.length
    small_contours :=
      (significant.filter (fun c => 10 < c.area ∧ c.area < 200)).length
    num_rectangles :=
      (significant.filter (fun c => c.area > 200 ∧ c.approxVertices = 4)).length
    color_std := d.colorStd
    saturation_mean := d.satMean
    filled_ratio := (d.filledPixels : ℚ) / ((d.height : ℚ) * (d.width : ℚ))
    circles := d.circles
    long_lines := counts.1
    vertical_lines := counts.2 }

/-- Lines 103-107 of the source: the pie-chart test.  The loop over
`circles[0]` returns `"Pie Chart"` as soon as it finds a radius exceeding
`min(width, height) * 0.2`; it falls through exactly when no radius does
(in particular when `circles` is `None` or the list is empty). -/
def hasLargeCircle (f : FeatureVector) : Bool :=
  match f.circles with
  | none => false
  | some rs => rs.any (fun r => decide (r > ((min f.width f.height : ℕ) : ℚ) * 0.2))

/-- Lines 100-164 of the source: the ordered decision tree over the feature
vector, transliterated clause by clause, ending with the fallback chain. -/
def classify (f : FeatureVector) : String :=
  if hasLargeCircle f then "Pie Chart"
  else if f.small_contours > 30 ∧ f.edge_density > 0.15 ∧ f.long_lines < 5 then
    "Scatterplot"
  else if 3 ≤ f.num_rectangles ∧ f.num_rectangles ≤ 10 ∧ f.vertical_lines ≥ 3 then
    "Boxplot"
  else if f.num_contours > 2 ∧ f.num_contours < 15 ∧ f.num_rectangles < 3 ∧
      (0.05 : ℚ) < f.edge_density ∧ f.edge_density < 0.15 ∧ f.saturation_mean > 50 then
    "Violin Plot"
  else if f.long_lines ≥ 2 ∧ f.num_contours > 5 ∧ f.num_rectangles < 5 then
    "Line Chart"
  else if f.filled_ratio > 0.3 ∧ f.color_std > 30 ∧ f.edge_density < 0.12 then
    "Stacked Area Chart"
  else if f.filled_ratio > 0.25 ∧ f.edge_density < 0.1 then
    "Area Chart"
  else if f.num_rectangles > 3 then
    if f.num_contours > 15 then "Grouped Bar Chart"
    else if f.color_std > 40 then "Stacked Bar Chart"
    else "Bar Chart"
  else if f.vertical_lines > 5 ∧ f.edge_density > 0.12 then
    if f.color_std > 40 then "Histogram with Density" else "Histogram"
  else if f.edge_density < 0.08 ∧ f.num_contours < 5 then
    "Density Plot"
  else if f.long_lines > 0 then "Line Chart"
  else if f.small_contours > 10 then "Scatterplot"
  else if f.num_rectangles > 0 then "Bar Chart"
  else "Line Chart"

/-- Lines 30 and 166-167 of the source: the whole body runs inside a
`try`; any exception raised by a feature computation is caught and the
literal `"Scatterplot"` is returned.  `none` models "some step of the try
block raised"; `some d` models a successful run with sensor data `d`. -/
def detect (isVert : Segment → Bool) (r : Option SensorData) : String :=
  match r with
  | none => "Scatterplot"
  | some d => classify (extract isVert d)

/-- The fixed closed set of thirteen chart-type labels (spec §6). -/
def chartLabels : List String :=
  ["Pie Chart", "Scatterplot", "Boxplot", "Violin Plot", "Line Chart",
   "Stacked Area Chart", "Area Chart", "Bar Chart", "Grouped Bar Chart",
   "Stacked Bar Chart", "Histogram", "Histogram with Density", "Density Plot"]

/-- The source function reads and writes no module-level mutable state
(the only module globals are the web-framework objects, untouched by
`detect_chart_type_accurate`), so the per-process state threaded through
successive calls is trivial. -/
def detectSt (isVert : Segment → Bool) (s : Unit) (r : Option SensorData) :
    String × Unit :=
  (detect isVert r, s)

end ChartDetect

namespace ChartDetect

/-- Membership of an if-then-else of labels in a label list follows from
membership of both branches (case analysis on the decidable condition,
avoiding any evaluation of the condition itself). -/
theorem ite_mem_of (c : Prop) [inst : Decidable c] {a b : String}
    {l : List String} (ha : a ∈ l) (hb : b ∈ l) : (if c then a else b) ∈ l := by
  cases inst with
  | isTrue h => exact ha
  | isFalse h => exact hb

/-- Every branch of the decision tree returns one of the thirteen labels. -/
theorem classify_mem_chartLabels (f : FeatureVector) : classify f ∈ chartLabels := by
  unfold classify
  repeat' apply ite_mem_of
  all_goals decide

/-- C1: for every run of the pipeline — whether some feature computation
raised (modelled by `none`) or extraction succeeded on arbitrary sensor
data — `detect_chart_type_accurate` returns exactly one label, and that
label lies in the fixed 13-value set; it never returns empty, multiple
labels, or raises (the embedding is a total function into `String`). -/
theorem detect_total_in_chartLabels (isVert : Segment → Bool)
    (r : Option SensorData) : detect isVert r ∈ chartLabels := by
  cases r with
  | none => exact (by decide : "Scatterplot" ∈ chartLabels)
  | some d => exact classify_mem_chartLabels (extract isVert d)

/-- C2: if any internal feature computation throws (the `none` outcome of
the try block), the core returns the literal fallback label
`"Scatterplot"` instead of propagating the error. -/
theorem detect_exception_fallback_scatterplot (isVert : Segment → Bool) :
    detect isVert none = "Scatterplot" := rfl

/-- C3: classification is pure — the source function touches no mutable
module state (state type `Unit`), so a second sequential call threaded
through the state left by a first call on the same input yields the same
label, and the classifier applied twice to one feature vector yields the
same label.  Both equalities hold definitionally because the embedding of
the stateless source is a function. -/
theorem detect_pure_deterministic (isVert : Segment → Bool) (s : Unit)
    (r : Option SensorData) (f : FeatureVector) :
    (detectSt isVert ((detectSt isVert s r).2) r).1 = (detectSt isVert s r).1 ∧
    classify f = classify f :=
  ⟨rfl, rfl⟩

end ChartDetect

namespace ChartDetect

/-- The feature vector of a uniformly blank image: no edges, no contours,
no rectangles, no lines, no circles, and (for a light background) a zero
fill ratio. -/
def blankVec : FeatureVector :=
  { width := 100, height := 100, edge_density := 0, num_contours := 0,
    small_contours := 0, num_rectangles := 0, color_std := 0,
    saturation_mean := 0, filled_ratio := 0, circles := none,
    long_lines := 0, vertical_lines := 0 }

/-- C4 counterexample: a concrete blank-image feature vector (zero edge
density, zero significant/small contours, zero rectangles, zero long and
vertical lines, no circles) is classified as `"Density Plot"`, not the
claimed fallback default `"Line Chart"`: the density-plot rule
(`edge_density < 0.08` and `num_significant_contours < 5`) matches before
the fallback chain is ever reached. -/
theorem blank_vector_not_line_chart :
    blankVec.edge_density = 0 ∧ blankVec.num_contours = 0 ∧
    blankVec.small_contours = 0 ∧ blankVec.num_rectangles = 0 ∧
    blankVec.long_lines = 0 ∧ blankVec.vertical_lines = 0 ∧
    blankVec.circles = none ∧
    classify blankVec = "Density Plot" ∧ classify blankVec ≠ "Line Chart" := by
  norm_num [classify, blankVec, hasLargeCircle]
  decide

/-- C4 (amended): for every feature vector of a uniformly blank image —
zero edge density, zero significant contours, zero small contours, zero
rectangles, zero long and vertical lines, no detected circles, and fill
ratio at most 0.25 (a light background) — the classifier returns
`"Density Plot"` via the rule `edge_density < 0.08 ∧ num_contours < 5`,
which always matches such a vector; the fallback chain and its `"Line
Chart"` default are never reached. -/
theorem blank_vector_density_plot (f : FeatureVector)
    (he : f.edge_density = 0) (hc : f.num_contours = 0)
    (hs : f.small_contours = 0) (hr : f.num_rectangles = 0)
    (hl : f.long_lines = 0) (hv : f.vertical_lines = 0)
    (hcir : f.circles = none) (hf : f.filled_ratio ≤ 0.25) :
    classify f = "Density Plot" := by
  have hpie : hasLargeCircle f = false := by
    unfold hasLargeCircle
    rw [hcir]
  unfold classify
  rw [if_neg (by simp [hpie]),
    if_neg (by simp [hs]),
    if_neg (by simp [hr]),
    if_neg (by simp [hc]),
    if_neg (by simp [hl]),
    if_neg (by rintro ⟨h6, -⟩; exact absurd (h6.trans_le hf) (by norm_num)),
    if_neg (by rintro ⟨h7, -⟩; exact absurd (h7.trans_le hf) (lt_irrefl _)),
    if_neg (by simp [hr]),
    if_neg (by simp [hv]),
    if_pos ⟨by rw [he]; norm_num, by rw [hc]; norm_num⟩]

/-- Witness for the amended C4 at the concrete blank vector. -/
theorem blank_vector_density_plot_witness : classify blankVec = "Density Plot" :=
  blank_vector_density_plot blankVec rfl rfl rfl rfl rfl rfl rfl
    (by norm_num [blankVec])

/-- C5: on every feature vector satisfying both the boxplot predicate
(`3 ≤ num_rectangles ≤ 10` and `vertical_lines ≥ 3`) and the histogram
predicate (`vertical_lines > 5` and `edge_density > 0.12`), and
satisfying neither the earlier pie-chart nor scatterplot predicates, the
classifier returns `"Boxplot"`: the earlier rule of the fixed ordered
chain wins and short-circuits all later rules (the histogram hypothesis
is never even consulted). -/
theorem boxplot_precedes_histogram (f : FeatureVector)
    (hbox : 3 ≤ f.num_rectangles ∧ f.num_rectangles ≤ 10 ∧ f.vertical_lines ≥ 3)
    (_hhist : f.vertical_lines > 5 ∧ f.edge_density > 0.12)
    (hpie : hasLargeCircle f = false)
    (hscat : ¬(f.small_contours > 30 ∧ f.edge_density > 0.15 ∧ f.long_lines < 5)) :
    classify f = "Boxplot" := by
  unfold classify
  rw [if_neg (by simp [hpie]), if_neg hscat, if_pos hbox]

/-- A vector satisfying both the boxplot and the histogram predicates. -/
def boxHistVec : FeatureVector :=
  { width := 100, height := 100, edge_density := 0.13, num_contours := 0,
    small_contours := 0, num_rectangles := 3, color_std := 0,
    saturation_mean := 0, filled_ratio := 0, circles := none,
    long_lines := 0, vertical_lines := 6 }

/-- Witness for C5 at a concrete vector matching both predicates. -/
theorem boxplot_precedes_histogram_witness : classify boxHistVec = "Boxplot" :=
  boxplot_precedes_histogram boxHistVec (by norm_num [boxHistVec])
    (by norm_num [boxHistVec]) rfl (by norm_num [boxHistVec])

/-- C6: on every feature vector whose detected-circle list contains a
radius strictly greater than `0.2 * min(width, height)`, the classifier
returns `"Pie Chart"`; the rule is first in the chain and fires no matter
what every other feature holds. -/
theorem pie_rule_fires_first (f : FeatureVector)
    (h : ∃ rs, f.circles = some rs ∧
      ∃ r ∈ rs, r > ((min f.width f.height : ℕ) : ℚ) * 0.2) :
    classify f = "Pie Chart" := by
  obtain ⟨rs, hcirc, r, hr, hgt⟩ := h
  have hbig : hasLargeCircle f = true := by
    unfold hasLargeCircle
    rw [hcirc]
    exact List.any_eq_true.mpr ⟨r, hr, decide_eq_true hgt⟩
  unfold classify
  rw [if_pos hbig]

/-- A vector with one detected circle of radius 30 in a 100×100 image. -/
def pieVec : FeatureVector :=
  { width := 100, height := 100, edge_density := 0, num_contours := 0,
    small_contours := 0, num_rectangles := 0, color_std := 0,
    saturation_mean := 0, filled_ratio := 0, circles := some [30],
    long_lines := 0, vertical_lines := 0 }

/-- Witness for C6: radius 30 > 0.2·100 yields `"Pie Chart"`. -/
theorem pie_rule_fires_first_witness : classify pieVec = "Pie Chart" :=
  pie_rule_fires_first pieVec
    ⟨[30], rfl, 30, List.mem_singleton.mpr rfl, by norm_num [pieVec]⟩

end ChartDetect

namespace ChartDetect

/-- C7: on every feature vector matched by none of the ten ordered rule
predicates, the result is given by the fallback chain evaluated in order:
`long_lines > 0` gives `"Line Chart"`, otherwise `small_contours > 10`
gives `"Scatterplot"`, otherwise `num_rectangles > 0` gives
`"Bar Chart"`, otherwise the ultimate default `"Line Chart"`. -/
theorem fallback_chain_order (f : FeatureVector)
    (h1 : hasLargeCircle f = false)
    (h2 : ¬(f.small_contours > 30 ∧ f.edge_density > 0.15 ∧ f.long_lines < 5))
    (h3 : ¬(3 ≤ f.num_rectangles ∧ f.num_rectangles ≤ 10 ∧ f.vertical_lines ≥ 3))
    (h4 : ¬(f.num_contours > 2 ∧ f.num_contours < 15 ∧ f.num_rectangles < 3 ∧
      (0.05 : ℚ) < f.edge_density ∧ f.edge_density < 0.15 ∧ f.saturation_mean > 50))
    (h5 : ¬(f.long_lines ≥ 2 ∧ f.num_contours > 5 ∧ f.num_rectangles < 5))
    (h6 : ¬(f.filled_ratio > 0.3 ∧ f.color_std > 30 ∧ f.edge_density < 0.12))
    (h7 : ¬(f.filled_ratio > 0.25 ∧ f.edge_density < 0.1))
    (h8 : ¬(f.num_rectangles > 3))
    (h9 : ¬(f.vertical_lines > 5 ∧ f.edge_density > 0.12))
    (h10 : ¬(f.edge_density < 0.08 ∧ f.num_contours < 5)) :
    classify f =
      (if f.long_lines > 0 then "Line Chart"
       else if f.small_contours > 10 then "Scatterplot"
       else if f.num_rectangles > 0 then "Bar Chart"
       else "Line Chart") := by
  unfold classify
  rw [if_neg (by simp [h1]), if_neg h2, if_neg h3, if_neg h4, if_neg h5,
    if_neg h6, if_neg h7, if_neg h8, if_neg h9, if_neg h10]

/-- A vector (five significant contours, nothing else) matching no rule
and no fallback signal, reaching the ultimate default. -/
def noRuleVec : FeatureVector :=
  { width := 100, height := 100, edge_density := 0, num_contours := 5,
    small_contours := 0, num_rectangles := 0, color_std := 0,
    saturation_mean := 0, filled_ratio := 0, circles := none,
    long_lines := 0, vertical_lines := 0 }

/-- Witness for C7 at a concrete vector matched by no rule. -/
theorem fallback_chain_order_witness : classify noRuleVec = "Line Chart" := by
  have h := fallback_chain_order noRuleVec rfl (by norm_num [noRuleVec])
    (by norm_num [noRuleVec]) (by norm_num [noRuleVec]) (by norm_num [noRuleVec])
    (by norm_num [noRuleVec]) (by norm_num [noRuleVec]) (by norm_num [noRuleVec])
    (by norm_num [noRuleVec]) (by norm_num [noRuleVec])
  rw [h]
  norm_num [noRuleVec]

/-- C8: on every feature vector that reaches the bar-chart rule (none of
the seven earlier predicates matched) and has `num_rectangles > 3`, the
label is decided by the nested sub-case chain, first true sub-case wins:
`num_contours > 15` gives `"Grouped Bar Chart"`, otherwise
`color_std > 40` gives `"Stacked Bar Chart"`, otherwise `"Bar Chart"`. -/
theorem bar_chart_subtypes (f : FeatureVector)
    (h1 : hasLargeCircle f = false)
    (h2 : ¬(f.small_contours > 30 ∧ f.edge_density > 0.15 ∧ f.long_lines < 5))
    (h3 : ¬(3 ≤ f.num_rectangles ∧ f.num_rectangles ≤ 10 ∧ f.vertical_lines ≥ 3))
    (h4 : ¬(f.num_contours > 2 ∧ f.num_contours < 15 ∧ f.num_rectangles < 3 ∧
      (0.05 : ℚ) < f.edge_density ∧ f.edge_density < 0.15 ∧ f.saturation_mean > 50))
    (h5 : ¬(f.long_lines ≥ 2 ∧ f.num_contours > 5 ∧ f.num_rectangles < 5))
    (h6 : ¬(f.filled_ratio > 0.3 ∧ f.color_std > 30 ∧ f.edge_density < 0.12))
    (h7 : ¬(f.filled_ratio > 0.25 ∧ f.edge_density < 0.1))
    (hrect : f.num_rectangles > 3) :
    classify f =
      (if f.num_contours > 15 then "Grouped Bar Chart"
       else if f.color_std > 40 then "Stacked Bar Chart"
       else "Bar Chart") := by
  unfold classify
  rw [if_neg (by simp [h1]), if_neg h2, if_neg h3, if_neg h4, if_neg h5,
    if_neg h6, if_neg h7, if_pos hrect]

/-- A vector with four rectangles and no other signal: plain bar chart. -/
def manyRectVec : FeatureVector :=
  { width := 100, height := 100, edge_density := 0, num_contours := 0,
    small_contours := 0, num_rectangles := 4, color_std := 0,
    saturation_mean := 0, filled_ratio := 0, circles := none,
    long_lines := 0, vertical_lines := 0 }

/-- Witness for C8 at a concrete four-rectangle vector. -/
theorem bar_chart_subtypes_witness : classify manyRectVec = "Bar Chart" := by
  have h := bar_chart_subtypes manyRectVec rfl (by norm_num [manyRectVec])
    (by norm_num [manyRectVec]) (by norm_num [manyRectVec])
    (by norm_num [manyRectVec]) (by norm_num [manyRectVec])
    (by norm_num [manyRectVec]) (by norm_num [manyRectVec])
  rw [h]
  norm_num [manyRectVec]

/-- C9: when the probabilistic line-segment search detects nothing
(`lines = none`), the extracted `long_lines` and `vertical_lines` counts
are both 0, every other feature is exactly what it would be for any other
line-search outcome on the same sensor data, and classification proceeds
normally (the pipeline returns the classification of that vector — no
error path is taken). -/
theorem no_lines_zero_counts_frame (isVert : Segment → Bool) (d : SensorData) :
    (extract isVert { d with lines := none }).long_lines = 0 ∧
    (extract isVert { d with lines := none }).vertical_lines = 0 ∧
    (∀ ls : Option (List Segment),
      (extract isVert { d with lines := none }).edge_density =
        (extract isVert { d with lines := ls }).edge_density ∧
      (extract isVert { d with lines := none }).num_contours =
        (extract isVert { d with lines := ls }).num_contours ∧
      (extract isVert { d with lines := none }).small_contours =
        (extract isVert { d with lines := ls }).small_contours ∧
      (extract isVert { d with lines := none }).num_rectangles =
        (extract isVert { d with lines := ls }).num_rectangles ∧
      (extract isVert { d with lines := none }).color_std =
        (extract isVert { d with lines := ls }).color_std ∧
      (extract isVert { d with lines := none }).saturation_mean =
        (extract isVert { d with lines := ls }).saturation_mean ∧
      (extract isVert { d with lines := none }).filled_ratio =
        (extract isVert { d with lines := ls }).filled_ratio ∧
      (extract isVert { d with lines := none }).circles =
        (extract isVert { d with lines := ls }).circles ∧
      (extract isVert { d with lines := none }).width =
        (extract isVert { d with lines := ls }).width ∧
      (extract isVert { d with lines := none }).height =
        (extract isVert { d with lines := ls }).height) ∧
    detect isVert (some { d with lines := none }) =
      classify (extract isVert { d with lines := none }) :=
  ⟨rfl, rfl, fun _ => ⟨rfl, rfl, rfl, rfl, rfl, rfl, rfl, rfl, rfl, rfl⟩, rfl⟩

/-- C10: for every sensor reading, the small-contour count never exceeds
the significant-contour count — small point-like contours are counted
only among the contours that already passed the area > 50 significance
filter — and it equals the count of contours with area strictly between
50 and 200, so the stated lower bound of 10 in `10 < area < 200` is
vacuous. -/
theorem small_contours_le_significant (isVert : Segment → Bool) (d : SensorData) :
    (extract isVert d).small_contours ≤ (extract isVert d).num_contours ∧
    (extract isVert d).small_contours =
      (d.contours.filter (fun c => 50 < c.area ∧ c.area < 200)).length := by
  constructor
  · exact List.length_filter_le _ _
  · show ((d.contours.filter (fun c => decide (c.area > 50))).filter
        (fun c => decide (10 < c.area ∧ c.area < 200))).length = _
    rw [List.filter_filter]
    congr 1
    apply List.filter_congr
    intro a _
    rcases lt_or_le 50 a.area with h50 | h50
    · rcases lt_or_le a.area 200 with h200 | h200
      · have h10 : (10 : ℚ) < a.area := by linarith
        simp [h50, h200, h10]
      · simp [not_lt.mpr h200]
    · simp [not_lt.mpr h50]

end ChartDetect
